import Mathlib

/-!
Shallow embedding of the boxscore-extraction core of the sportsreference
repository (src/sportsreference/mlb/boxscore.py and
src/sportsreference/ncaaf/boxscore.py), together with theorems settling the
frozen claims about its specification.

Python-level behaviour is made explicit: fallible operations return
`Except PyErr`, a raw field that may still be `None` is an `Option String`,
and string primitives (`replace`, `split`, `in`, `lower`, `int(...)`) are
modelled as executable functions on character lists so that every theorem
can be evaluated on concrete inputs by kernel reduction.
-/

/-- The kinds of Python exceptions the embedded code can raise.
`valueError` is what `int(str)` raises on a malformed string (a
type-conversion failure), `typeError` is what `int(None)` raises,
`attributeError` is what `None.replace(...)`/`None.lower()` raise, and
`indexError` is what an out-of-range list subscript raises. -/
inductive PyErr where
  | attributeError
  | typeError
  | valueError
  | indexError
  | keyError
deriving DecidableEq, Repr

deriving instance DecidableEq for Except

/-- Boolean list-prefix test used to implement substring search. -/
def isPrefixL : List Char → List Char → Bool
  | [], _ => true
  | _ :: _, [] => false
  | a :: as, b :: bs => a = b && isPrefixL as bs

/-- Boolean substring test on character lists: does `pat` occur
contiguously inside the second list? -/
def isSubstrL (pat : List Char) : List Char → Bool
  | [] => isPrefixL pat []
  | c :: rest => isPrefixL pat (c :: rest) || isSubstrL pat rest

/-- Python's `pat in s` membership test for strings. -/
def pyContains (s pat : String) : Bool :=
  isSubstrL pat.data s.data

/-- Python's `str.lower()`. The embedded pages are ASCII, for which
`Char.toLower` agrees with Python's lowering. -/
def pyLower (s : String) : String :=
  String.mk (s.data.map Char.toLower)

/-- One fuelled pass of Python's `str.replace(pat, rep)`: left-to-right,
non-overlapping. The fuel starts at the length of the subject string,
which each step strictly consumes, so it never runs out for the
non-empty patterns the source uses. -/
def pyReplaceAux (pat rep : List Char) : Nat → List Char → List Char
  | _, [] => []
  | 0, s => s
  | fuel + 1, c :: rest =>
    if !pat.isEmpty && isPrefixL pat (c :: rest) then
      rep ++ pyReplaceAux pat rep fuel ((c :: rest).drop pat.length)
    else
      c :: pyReplaceAux pat rep fuel rest

/-- Python's `s.replace(pat, rep)` for a non-empty pattern (the source
only ever replaces `"--"`, `"Start Time: "`, `","`, and similar). -/
def pyReplace (s pat rep : String) : String :=
  String.mk (pyReplaceAux pat.data rep.data s.data.length s.data)

/-- Fuelled worker for Python's `str.split(sep)` with a non-empty
separator; `acc` holds the current chunk reversed. -/
def pySplitAux (sep : List Char) : Nat → List Char → List Char → List (List Char)
  | _, [], acc => [acc.reverse]
  | 0, s, acc => [acc.reverse ++ s]
  | fuel + 1, c :: rest, acc =>
    if !sep.isEmpty && isPrefixL sep (c :: rest) then
      acc.reverse :: pySplitAux sep fuel ((c :: rest).drop sep.length) []
    else
      pySplitAux sep fuel rest (c :: acc)

/-- Python's `s.split(sep)` for a non-empty separator: `""` splits to
`[""]`, and a trailing separator yields a trailing empty chunk, exactly
as in Python. -/
def pySplit (s sep : String) : List String :=
  (pySplitAux sep.data s.data.length s.data []).map String.mk

/-- Numeric value of a non-empty all-digit character list, `none`
otherwise. -/
def digitsVal (ds : List Char) : Option Nat :=
  if ds.isEmpty then none
  else if ds.all Char.isDigit then
    some (ds.foldl (fun n c => 10 * n + (c.toNat - 48)) 0)
  else none

/-- Strip leading and trailing whitespace from a character list, as
Python's `int(...)` does before reading the digits. -/
def stripWs (l : List Char) : List Char :=
  ((l.dropWhile Char.isWhitespace).reverse.dropWhile Char.isWhitespace).reverse

/-- Python's `int(s)` on a string: optional sign and decimal digits after
whitespace stripping give the value, anything else raises `ValueError`.
(The embedded pages never use the underscore or non-ASCII digit forms
Python also tolerates.) -/
def pyInt (s : String) : Except PyErr Int :=
  match stripWs s.data with
  | '-' :: ds =>
    match digitsVal ds with
    | some n => Except.ok (-(n : Int))
    | none => Except.error PyErr.valueError
  | '+' :: ds =>
    match digitsVal ds with
    | some n => Except.ok (n : Int)
    | none => Except.error PyErr.valueError
  | ds =>
    match digitsVal ds with
    | some n => Except.ok (n : Int)
    | none => Except.error PyErr.valueError

/-- Python's `int(x)` applied to a raw field that may still be `None`
(unset): `int(None)` raises `TypeError`. -/
def pyIntOpt : Option String → Except PyErr Int
  | none => Except.error PyErr.typeError
  | some s => pyInt s

/-- Modelled from the spec: the `HOME` winner constant from
`sportsreference.constants`, a module not under src/. Only its identity
(distinct from `AWAY`) matters to the embedded code. -/
def HOME : String := "Home"

/-- Modelled from the spec: the `AWAY` winner constant from
`sportsreference.constants`, a module not under src/. -/
def AWAY : String := "Away"

/-- Modelled from the spec: the `NIGHT` time-of-day constant from
`sportsreference.mlb.constants`, a module not under src/. -/
def NIGHT : String := "Night"

/-- Modelled from the spec: the `DAY` time-of-day constant from
`sportsreference.mlb.constants`, a module not under src/. -/
def DAY : String := "Day"

/-- A parsed HTML document handle (the PyQuery object the code queries).
Only its identity matters to the fetch-layer claims. -/
structure PyQueryDoc where
  html : String
deriving DecidableEq, Repr

/-- Modelled from the spec: `utils._remove_html_comment_tags` (the
`sportsreference.utils` module is not under src/) strips embedded HTML
comment markers before parsing, since some target data sits inside
comments. -/
def removeHtmlCommentTags (d : PyQueryDoc) : PyQueryDoc :=
  PyQueryDoc.mk (pyReplace (pyReplace d.html "<!--" "") "-->" "")

/-- `Boxscore._retrieve_html_page` (mlb/boxscore.py lines 118-143): the
`pq(url)` network fetch is modelled by its outcome `fetchResult`; the bare
`except` converts any failure into the absent sentinel `None`, and on
success the comment tags are stripped before re-parsing. -/
def mlbRetrieveHtmlPage (fetchResult : Except PyErr PyQueryDoc) : Option PyQueryDoc :=
  match fetchResult with
  | Except.error _ => none
  | Except.ok doc => some (removeHtmlCommentTags doc)

/-- `Boxscores._get_requested_page` (mlb/boxscore.py lines 1108-1126):
the body is a bare `return pq(url)` with no exception handling, so the
fetch outcome — including a failure — is returned (propagated) as-is. -/
def mlbGetRequestedPage (fetchResult : Except PyErr PyQueryDoc) : Except PyErr PyQueryDoc :=
  fetchResult

/-- `Boxscore._retrieve_html_page` (ncaaf/boxscore.py lines 74-99),
identical in structure to the MLB version. -/
def ncaafRetrieveHtmlPage (fetchResult : Except PyErr PyQueryDoc) : Option PyQueryDoc :=
  match fetchResult with
  | Except.error _ => none
  | Except.ok doc => some (removeHtmlCommentTags doc)

/-- `Boxscores._get_requested_page` (ncaaf/boxscore.py lines 725-743):
a bare `return pq(url)`, no exception handling. -/
def ncaafGetRequestedPage (fetchResult : Except PyErr PyQueryDoc) : Except PyErr PyQueryDoc :=
  fetchResult

/-- The weekday names scanned by the NCAAF narrative parser
(ncaaf/boxscore.py lines 132-133). -/
def weekdayNames : List String :=
  ["monday", "tuesday", "wednesday", "thursday", "friday", "saturday", "sunday"]

/-- The common tail of both branches of
`Boxscore._parse_game_date_and_location` (ncaaf/boxscore.py lines
137-142 and 144-149): select `game_info[index]`, returning `''` when the
index is past the end of the block, when the selected line carries the
image-credit watermark, or when it is empty. -/
def ncaafPick (index : Nat) (gameInfo : List String) : Except PyErr String :=
  match gameInfo.get? index with
  | none => Except.ok ""
  | some line =>
    if pyContains (pyLower line) "sports logos.net" = true ∨ line = "" then Except.ok ""
    else Except.ok line

/-- `Boxscore._parse_game_date_and_location` (ncaaf/boxscore.py lines
101-149) on the newline-split text of the first matched element
(`game_info = items[0].split('\n')`; the CSS-selector lookup and the
split are library calls, so the embedding takes the lines directly).
If any weekday name occurs in the first line the field's fixed index is
used; otherwise (a bowl/championship game with an extra title line) the
index is shifted by +1. `game_info[0]` on an empty list would raise, but
Python's split never produces an empty list. -/
def ncaafParseGameDateAndLocation (index : Nat) (gameInfo : List String) :
    Except PyErr String :=
  match gameInfo with
  | [] => Except.error PyErr.indexError
  | l0 :: _ =>
    if weekdayNames.any (fun day => pyContains (pyLower l0) day) then
      ncaafPick index gameInfo
    else
      ncaafPick (index + 1) gameInfo

/-- Does one line of a matched element's text contain the MLB
doubleheader marker phrase (mlb/boxscore.py lines 173-174)? The check is
case-insensitive via `item.lower()`. -/
def isDoubleHeaderLine (l : String) : Bool :=
  pyContains (pyLower l) "first game of doubleheader" ||
    pyContains (pyLower l) "second game of doubleheader"

/-- Python's `marker in item.lower()` on a matched element whose text is
represented as its list of lines: a marker phrase containing no newline
occurs in the joined text exactly when it occurs in one of the lines. -/
def itemHasDoubleHeader (item : List String) : Bool :=
  item.any isDoubleHeaderLine

/-- The inner `for element in game_info:` scan of
`Boxscore._parse_game_date_and_location` (mlb/boxscore.py lines
178-186): for `time_of_day` the first line containing `night game` or
`day game` is selected; for any other field the first line containing
the field's `DOUBLE_HEADER_INDICES` marker substring `dhMatcher` is
selected (the marker table lives in mlb/constants.py, outside src/, so
the marker is a parameter). -/
def mlbScanFieldLine (field dhMatcher : String) : List String → Option String
  | [] => none
  | e :: rest =>
    if field = "time_of_day" then
      if pyContains (pyLower e) "night game" || pyContains (pyLower e) "day game" then
        some e
      else mlbScanFieldLine field dhMatcher rest
    else if pyContains (pyLower e) dhMatcher then some e
    else mlbScanFieldLine field dhMatcher rest

/-- The outer `for item in items:` loop of
`Boxscore._parse_game_date_and_location` (mlb/boxscore.py lines
172-194) with the running `double_header` flag `dh`: the first item
containing the marker returns `game_info[0]` for the `date` field or the
inner scan's line; a fruitless scan continues with the flag set; after
the loop a set flag yields `''` and otherwise `game_info[index]` is
returned (raising `IndexError` when out of range). -/
def mlbNarrativeLoop (field dhMatcher : String) (index : Nat)
    (gameInfo : List String) : List (List String) → Bool → Except PyErr String
  | [], dh =>
    if dh then Except.ok ""
    else
      match gameInfo.get? index with
      | some v => Except.ok v
      | none => Except.error PyErr.indexError
  | item :: rest, dh =>
    if itemHasDoubleHeader item then
      if field = "date" then
        match gameInfo.head? with
        | some v => Except.ok v
        | none => Except.error PyErr.indexError
      else
        match mlbScanFieldLine field dhMatcher gameInfo with
        | some v => Except.ok v
        | none => mlbNarrativeLoop field dhMatcher index gameInfo rest true
    else mlbNarrativeLoop field dhMatcher index gameInfo rest dh

/-- `Boxscore._parse_game_date_and_location` (mlb/boxscore.py lines
145-194) on the matched elements' texts, each represented as its list
of lines; `game_info` is the first element's lines
(`items[0].split('\n')`, which raises on an empty match list). -/
def mlbParseGameDateAndLocation (field dhMatcher : String) (index : Nat)
    (items : List (List String)) : Except PyErr String :=
  match items with
  | [] => Except.error PyErr.indexError
  | gameInfo :: _ => mlbNarrativeLoop field dhMatcher index gameInfo items false

/-- The raw-field state of an NCAAF `Boxscore` instance
(ncaaf/boxscore.py lines 27-72): every parsed attribute starts as `None`
and stays `None` when the page is unavailable. The `_away_name` /
`_home_name` PyQuery tags and the derived winner fields are not part of
the raw state captured here (the name tags feed `utils` helpers outside
src/). -/
structure NcaafBoxscoreState where
  uri : String
  date : Option String
  time : Option String
  stadium : Option String
  away_points : Option String
  away_first_downs : Option String
  away_rush_attempts : Option String
  away_rush_yards : Option String
  away_rush_touchdowns : Option String
  away_pass_completions : Option String
  away_pass_attempts : Option String
  away_pass_yards : Option String
  away_pass_touchdowns : Option String
  away_interceptions : Option String
  away_total_yards : Option String
  away_fumbles : Option String
  away_fumbles_lost : Option String
  away_turnovers : Option String
  away_penalties : Option String
  away_yards_from_penalties : Option String
  home_points : Option String
  home_first_downs : Option String
  home_rush_attempts : Option String
  home_rush_yards : Option String
  home_rush_touchdowns : Option String
  home_pass_completions : Option String
  home_pass_attempts : Option String
  home_pass_yards : Option String
  home_pass_touchdowns : Option String
  home_interceptions : Option String
  home_total_yards : Option String
  home_fumbles : Option String
  home_fumbles_lost : Option String
  home_turnovers : Option String
  home_penalties : Option String
  home_yards_from_penalties : Option String
deriving DecidableEq, Repr

/-- A freshly constructed NCAAF state whose page fetch returned the
absent sentinel: every raw field is still `None`. -/
def ncaafEmptyState : NcaafBoxscoreState where
  uri := "2018-01-08-georgia"
  date := none
  time := none
  stadium := none
  away_points := none
  away_first_downs := none
  away_rush_attempts := none
  away_rush_yards := none
  away_rush_touchdowns := none
  away_pass_completions := none
  away_pass_attempts := none
  away_pass_yards := none
  away_pass_touchdowns := none
  away_interceptions := none
  away_total_yards := none
  away_fumbles := none
  away_fumbles_lost := none
  away_turnovers := none
  away_penalties := none
  away_yards_from_penalties := none
  home_points := none
  home_first_downs := none
  home_rush_attempts := none
  home_rush_yards := none
  home_rush_touchdowns := none
  home_pass_completions := none
  home_pass_attempts := none
  home_pass_yards := none
  home_pass_touchdowns := none
  home_interceptions := none
  home_total_yards := none
  home_fumbles := none
  home_fumbles_lost := none
  home_turnovers := none
  home_penalties := none
  home_yards_from_penalties := none

/-- The composite-field parse policy shared by every slash-group
accessor: normalize `--` to `-`, then split on `-`
(ncaaf/boxscore.py, e.g. line 411). -/
def compositeParts (raw : String) : List String :=
  pySplit (pyReplace raw "--" "-") "-"

/-- `int(parts[pos])` on the parts of a composite field: an out-of-range
position raises `IndexError` before the conversion is attempted. -/
def pyIntAt (parts : List String) (pos : Nat) : Except PyErr Int :=
  match parts.get? pos with
  | none => Except.error PyErr.indexError
  | some p => pyInt p

/-- `Boxscore.date` (ncaaf line 284-288): returns the raw field as-is,
still `None` when unset. -/
def NcaafBoxscoreState.dateProp (b : NcaafBoxscoreState) : Option String :=
  b.date

/-- `Boxscore.time` (ncaaf lines 290-295): `self._time.replace(...)`;
on an unset field `None.replace` raises `AttributeError`. -/
def NcaafBoxscoreState.timeProp (b : NcaafBoxscoreState) : Except PyErr String :=
  match b.time with
  | none => Except.error PyErr.attributeError
  | some s => Except.ok (pyReplace s "Start Time: " "")

/-- `Boxscore.stadium` (ncaaf lines 297-303). -/
def NcaafBoxscoreState.stadiumProp (b : NcaafBoxscoreState) : Except PyErr String :=
  match b.stadium with
  | none => Except.error PyErr.attributeError
  | some s => Except.ok (pyReplace s "Stadium: " "")

/-- `Boxscore.away_points` (ncaaf lines 362-367): `int(self._away_points)`. -/
def NcaafBoxscoreState.awayPoints (b : NcaafBoxscoreState) : Except PyErr Int :=
  pyIntOpt b.away_points

/-- `Boxscore.home_points` (ncaaf lines 507-512). -/
def NcaafBoxscoreState.homePoints (b : NcaafBoxscoreState) : Except PyErr Int :=
  pyIntOpt b.home_points

/-- `Boxscore.winner` (ncaaf lines 305-313): `HOME` when
`self.home_points > self.away_points` (evaluated in that order), `AWAY`
in every other case, a tie included. -/
def NcaafBoxscoreState.winnerProp (b : NcaafBoxscoreState) : Except PyErr String :=
  match b.homePoints with
  | Except.error e => Except.error e
  | Except.ok hp =>
    match b.awayPoints with
    | Except.error e => Except.error e
    | Except.ok ap => Except.ok (if ap < hp then HOME else AWAY)

/-- `Boxscore.away_first_downs` (ncaaf lines 369-374). -/
def NcaafBoxscoreState.awayFirstDowns (b : NcaafBoxscoreState) : Except PyErr Int :=
  pyIntOpt b.away_first_downs

/-- `Boxscore.away_rush_attempts` (ncaaf lines 376-383): position 0 of
the `Rush-Yds-TDs` composite. -/
def NcaafBoxscoreState.awayRushAttempts (b : NcaafBoxscoreState) : Except PyErr Int :=
  match b.away_rush_attempts with
  | none => Except.error PyErr.attributeError
  | some raw => pyIntAt (compositeParts raw) 0

/-- `Boxscore.away_rush_yards` (ncaaf lines 385-392): position 1. -/
def NcaafBoxscoreState.awayRushYards (b : NcaafBoxscoreState) : Except PyErr Int :=
  match b.away_rush_yards with
  | none => Except.error PyErr.attributeError
  | some raw => pyIntAt (compositeParts raw) 1

/-- `Boxscore.away_rush_touchdowns` (ncaaf lines 394-402): position 2. -/
def NcaafBoxscoreState.awayRushTouchdowns (b : NcaafBoxscoreState) : Except PyErr Int :=
  match b.away_rush_touchdowns with
  | none => Except.error PyErr.attributeError
  | some raw => pyIntAt (compositeParts raw) 2

/-- `Boxscore.away_pass_completions` (ncaaf lines 404-412): position 0
of the `Cmp-Att-Yd-TD-INT` composite. -/
def NcaafBoxscoreState.awayPassCompletions (b : NcaafBoxscoreState) : Except PyErr Int :=
  match b.away_pass_completions with
  | none => Except.error PyErr.attributeError
  | some raw => pyIntAt (compositeParts raw) 0

/-- `Boxscore.away_pass_attempts` (ncaaf lines 414-422): position 1. -/
def NcaafBoxscoreState.awayPassAttempts (b : NcaafBoxscoreState) : Except PyErr Int :=
  match b.away_pass_attempts with
  | none => Except.error PyErr.attributeError
  | some raw => pyIntAt (compositeParts raw) 1

/-- `Boxscore.away_pass_yards` (ncaaf lines 424-431): position 2. -/
def NcaafBoxscoreState.awayPassYards (b : NcaafBoxscoreState) : Except PyErr Int :=
  match b.away_pass_yards with
  | none => Except.error PyErr.attributeError
  | some raw => pyIntAt (compositeParts raw) 2

/-- `Boxscore.away_pass_touchdowns` (ncaaf lines 433-441): position 3. -/
def NcaafBoxscoreState.awayPassTouchdowns (b : NcaafBoxscoreState) : Except PyErr Int :=
  match b.away_pass_touchdowns with
  | none => Except.error PyErr.attributeError
  | some raw => pyIntAt (compositeParts raw) 3

/-- `Boxscore.away_interceptions` (ncaaf lines 443-450): position 4. -/
def NcaafBoxscoreState.awayInterceptions (b : NcaafBoxscoreState) : Except PyErr Int :=
  match b.away_interceptions with
  | none => Except.error PyErr.attributeError
  | some raw => pyIntAt (compositeParts raw) 4

/-- `Boxscore.away_total_yards` (ncaaf lines 452-457). -/
def NcaafBoxscoreState.awayTotalYards (b : NcaafBoxscoreState) : Except PyErr Int :=
  pyIntOpt b.away_total_yards

/-- `Boxscore.away_fumbles` (ncaaf lines 459-467): position 0 of the
`Fumbles-Lost` composite. -/
def NcaafBoxscoreState.awayFumbles (b : NcaafBoxscoreState) : Except PyErr Int :=
  match b.away_fumbles with
  | none => Except.error PyErr.attributeError
  | some raw => pyIntAt (compositeParts raw) 0

/-- `Boxscore.away_fumbles_lost` (ncaaf lines 469-477): the source reads
`self._away_fumbles` — not `self._away_fumbles_lost` — at position 1. -/
def NcaafBoxscoreState.awayFumblesLost (b : NcaafBoxscoreState) : Except PyErr Int :=
  match b.away_fumbles with
  | none => Except.error PyErr.attributeError
  | some raw => pyIntAt (compositeParts raw) 1

/-- `Boxscore.away_turnovers` (ncaaf lines 479-485). -/
def NcaafBoxscoreState.awayTurnovers (b : NcaafBoxscoreState) : Except PyErr Int :=
  pyIntOpt b.away_turnovers

/-- `Boxscore.away_penalties` (ncaaf lines 487-494): position 0 of the
`Penalties-Yards` composite. -/
def NcaafBoxscoreState.awayPenalties (b : NcaafBoxscoreState) : Except PyErr Int :=
  match b.away_penalties with
  | none => Except.error PyErr.attributeError
  | some raw => pyIntAt (compositeParts raw) 0

/-- `Boxscore.away_yards_from_penalties` (ncaaf lines 496-505):
position 1. -/
def NcaafBoxscoreState.awayYardsFromPenalties (b : NcaafBoxscoreState) : Except PyErr Int :=
  match b.away_yards_from_penalties with
  | none => Except.error PyErr.attributeError
  | some raw => pyIntAt (compositeParts raw) 1

/-- `Boxscore.home_first_downs` (ncaaf lines 514-519). -/
def NcaafBoxscoreState.homeFirstDowns (b : NcaafBoxscoreState) : Except PyErr Int :=
  pyIntOpt b.home_first_downs

/-- `Boxscore.home_rush_attempts` (ncaaf lines 521-528). -/
def NcaafBoxscoreState.homeRushAttempts (b : NcaafBoxscoreState) : Except PyErr Int :=
  match b.home_rush_attempts with
  | none => Except.error PyErr.attributeError
  | some raw => pyIntAt (compositeParts raw) 0

/-- `Boxscore.home_rush_yards` (ncaaf lines 530-537). -/
def NcaafBoxscoreState.homeRushYards (b : NcaafBoxscoreState) : Except PyErr Int :=
  match b.home_rush_yards with
  | none => Except.error PyErr.attributeError
  | some raw => pyIntAt (compositeParts raw) 1

/-- `Boxscore.home_rush_touchdowns` (ncaaf lines 539-547). -/
def NcaafBoxscoreState.homeRushTouchdowns (b : NcaafBoxscoreState) : Except PyErr Int :=
  match b.home_rush_touchdowns with
  | none => Except.error PyErr.attributeError
  | some raw => pyIntAt (compositeParts raw) 2

/-- `Boxscore.home_pass_completions` (ncaaf lines 549-557). -/
def NcaafBoxscoreState.homePassCompletions (b : NcaafBoxscoreState) : Except PyErr Int :=
  match b.home_pass_completions with
  | none => Except.error PyErr.attributeError
  | some raw => pyIntAt (compositeParts raw) 0

/-- `Boxscore.home_pass_attempts` (ncaaf lines 559-567). -/
def NcaafBoxscoreState.homePassAttempts (b : NcaafBoxscoreState) : Except PyErr Int :=
  match b.home_pass_attempts with
  | none => Except.error PyErr.attributeError
  | some raw => pyIntAt (compositeParts raw) 1

/-- `Boxscore.home_pass_yards` (ncaaf lines 569-576). -/
def NcaafBoxscoreState.homePassYards (b : NcaafBoxscoreState) : Except PyErr Int :=
  match b.home_pass_yards with
  | none => Except.error PyErr.attributeError
  | some raw => pyIntAt (compositeParts raw) 2

/-- `Boxscore.home_pass_touchdowns` (ncaaf lines 578-586). -/
def NcaafBoxscoreState.homePassTouchdowns (b : NcaafBoxscoreState) : Except PyErr Int :=
  match b.home_pass_touchdowns with
  | none => Except.error PyErr.attributeError
  | some raw => pyIntAt (compositeParts raw) 3

/-- `Boxscore.home_interceptions` (ncaaf lines 588-595): the source
reads `self._home_pass_touchdowns` — not `self._home_interceptions` —
and returns position 4 of that composite. -/
def NcaafBoxscoreState.homeInterceptions (b : NcaafBoxscoreState) : Except PyErr Int :=
  match b.home_pass_touchdowns with
  | none => Except.error PyErr.attributeError
  | some raw => pyIntAt (compositeParts raw) 4

/-- `Boxscore.home_total_yards` (ncaaf lines 597-602). -/
def NcaafBoxscoreState.homeTotalYards (b : NcaafBoxscoreState) : Except PyErr Int :=
  pyIntOpt b.home_total_yards

/-- `Boxscore.home_fumbles` (ncaaf lines 604-612). -/
def NcaafBoxscoreState.homeFumbles (b : NcaafBoxscoreState) : Except PyErr Int :=
  match b.home_fumbles with
  | none => Except.error PyErr.attributeError
  | some raw => pyIntAt (compositeParts raw) 0

/-- `Boxscore.home_fumbles_lost` (ncaaf lines 614-622). -/
def NcaafBoxscoreState.homeFumblesLost (b : NcaafBoxscoreState) : Except PyErr Int :=
  match b.home_fumbles_lost with
  | none => Except.error PyErr.attributeError
  | some raw => pyIntAt (compositeParts raw) 1

/-- `Boxscore.home_turnovers` (ncaaf lines 624-630). -/
def NcaafBoxscoreState.homeTurnovers (b : NcaafBoxscoreState) : Except PyErr Int :=
  pyIntOpt b.home_turnovers

/-- `Boxscore.home_penalties` (ncaaf lines 632-639). -/
def NcaafBoxscoreState.homePenalties (b : NcaafBoxscoreState) : Except PyErr Int :=
  match b.home_penalties with
  | none => Except.error PyErr.attributeError
  | some raw => pyIntAt (compositeParts raw) 0

/-- `Boxscore.home_yards_from_penalties` (ncaaf lines 641-650). -/
def NcaafBoxscoreState.homeYardsFromPenalties (b : NcaafBoxscoreState) : Except PyErr Int :=
  match b.home_yards_from_penalties with
  | none => Except.error PyErr.attributeError
  | some raw => pyIntAt (compositeParts raw) 1

/-- One row of the NCAAF tabular export, covering the columns of
`Boxscore.dataframe` (ncaaf lines 239-280) that derive from the raw
fields embedded in `NcaafBoxscoreState`; the four winning/losing
name/abbreviation columns are omitted because they derive from the
PyQuery name tags through `utils._parse_abbreviation`, which lives
outside src/. -/
structure NcaafFrame where
  away_first_downs : Int
  away_fumbles : Int
  away_fumbles_lost : Int
  away_interceptions : Int
  away_pass_attempts : Int
  away_pass_completions : Int
  away_pass_touchdowns : Int
  away_pass_yards : Int
  away_penalties : Int
  away_points : Int
  away_rush_attempts : Int
  away_rush_touchdowns : Int
  away_rush_yards : Int
  away_total_yards : Int
  away_turnovers : Int
  away_yards_from_penalties : Int
  date : Option String
  home_first_downs : Int
  home_fumbles : Int
  home_fumbles_lost : Int
  home_interceptions : Int
  home_pass_attempts : Int
  home_pass_completions : Int
  home_pass_touchdowns : Int
  home_pass_yards : Int
  home_penalties : Int
  home_points : Int
  home_rush_attempts : Int
  home_rush_touchdowns : Int
  home_rush_yards : Int
  home_total_yards : Int
  home_turnovers : Int
  home_yards_from_penalties : Int
  stadium : String
  time : String
  winner : String

/-- `Boxscore.dataframe` (ncaaf lines 230-281): when both core score
fields `_away_points` and `_home_points` are still `None` the export is
the absent result `None`; otherwise every column's typed accessor is
evaluated (any of which may raise) and a single full row is returned,
indexed by the instance's URI. -/
def NcaafBoxscoreState.dataframe (b : NcaafBoxscoreState) :
    Except PyErr (Option (String × NcaafFrame)) :=
  if b.away_points = none ∧ b.home_points = none then Except.ok none
  else do
    let vAwayFirstDowns ← b.awayFirstDowns
    let vAwayFumbles ← b.awayFumbles
    let vAwayFumblesLost ← b.awayFumblesLost
    let vAwayInterceptions ← b.awayInterceptions
    let vAwayPassAttempts ← b.awayPassAttempts
    let vAwayPassCompletions ← b.awayPassCompletions
    let vAwayPassTouchdowns ← b.awayPassTouchdowns
    let vAwayPassYards ← b.awayPassYards
    let vAwayPenalties ← b.awayPenalties
    let vAwayPoints ← b.awayPoints
    let vAwayRushAttempts ← b.awayRushAttempts
    let vAwayRushTouchdowns ← b.awayRushTouchdowns
    let vAwayRushYards ← b.awayRushYards
    let vAwayTotalYards ← b.awayTotalYards
    let vAwayTurnovers ← b.awayTurnovers
    let vAwayYardsFromPenalties ← b.awayYardsFromPenalties
    let vDate := b.dateProp
    let vHomeFirstDowns ← b.homeFirstDowns
    let vHomeFumbles ← b.homeFumbles
    let vHomeFumblesLost ← b.homeFumblesLost
    let vHomeInterceptions ← b.homeInterceptions
    let vHomePassAttempts ← b.homePassAttempts
    let vHomePassCompletions ← b.homePassCompletions
    let vHomePassTouchdowns ← b.homePassTouchdowns
    let vHomePassYards ← b.homePassYards
    let vHomePenalties ← b.homePenalties
    let vHomePoints ← b.homePoints
    let vHomeRushAttempts ← b.homeRushAttempts
    let vHomeRushTouchdowns ← b.homeRushTouchdowns
    let vHomeRushYards ← b.homeRushYards
    let vHomeTotalYards ← b.homeTotalYards
    let vHomeTurnovers ← b.homeTurnovers
    let vHomeYardsFromPenalties ← b.homeYardsFromPenalties
    let vStadium ← b.stadiumProp
    let vTime ← b.timeProp
    let vWinner ← b.winnerProp
    pure (some (b.uri,
      { away_first_downs := vAwayFirstDowns
        away_fumbles := vAwayFumbles
        away_fumbles_lost := vAwayFumblesLost
        away_interceptions := vAwayInterceptions
        away_pass_attempts := vAwayPassAttempts
        away_pass_completions := vAwayPassCompletions
        away_pass_touchdowns := vAwayPassTouchdowns
        away_pass_yards := vAwayPassYards
        away_penalties := vAwayPenalties
        away_points := vAwayPoints
        away_rush_attempts := vAwayRushAttempts
        away_rush_touchdowns := vAwayRushTouchdowns
        away_rush_yards := vAwayRushYards
        away_total_yards := vAwayTotalYards
        away_turnovers := vAwayTurnovers
        away_yards_from_penalties := vAwayYardsFromPenalties
        date := vDate
        home_first_downs := vHomeFirstDowns
        home_fumbles := vHomeFumbles
        home_fumbles_lost := vHomeFumblesLost
        home_interceptions := vHomeInterceptions
        home_pass_attempts := vHomePassAttempts
        home_pass_completions := vHomePassCompletions
        home_pass_touchdowns := vHomePassTouchdowns
        home_pass_yards := vHomePassYards
        home_penalties := vHomePenalties
        home_points := vHomePoints
        home_rush_attempts := vHomeRushAttempts
        home_rush_touchdowns := vHomeRushTouchdowns
        home_rush_yards := vHomeRushYards
        home_total_yards := vHomeTotalYards
        home_turnovers := vHomeTurnovers
        home_yards_from_penalties := vHomeYardsFromPenalties
        stadium := vStadium
        time := vTime
        winner := vWinner }))

/-- The raw-field state of an MLB `Boxscore` instance (mlb/boxscore.py
lines 29-116), restricted to the narrative fields and the core batting
columns; the remaining columns are direct `int(...)`/`float(...)`
conversions of further raw fields with no additional logic. -/
structure MlbBoxscoreState where
  uri : String
  date : Option String
  time : Option String
  attendance : Option String
  venue : Option String
  time_of_day : Option String
  duration : Option String
  away_at_bats : Option String
  away_runs : Option String
  away_hits : Option String
  away_rbi : Option String
  home_at_bats : Option String
  home_runs : Option String
  home_hits : Option String
  home_rbi : Option String
deriving DecidableEq, Repr

/-- A freshly constructed MLB state whose page fetch returned the
absent sentinel: every raw field is still `None`. -/
def mlbEmptyState : MlbBoxscoreState where
  uri := "BOS/BOS201806070"
  date := none
  time := none
  attendance := none
  venue := none
  time_of_day := none
  duration := none
  away_at_bats := none
  away_runs := none
  away_hits := none
  away_rbi := none
  home_at_bats := none
  home_runs := none
  home_hits := none
  home_rbi := none

/-- `Boxscore.date` (mlb lines 378-383): returns the raw field as-is,
still `None` when unset. -/
def MlbBoxscoreState.dateProp (b : MlbBoxscoreState) : Option String :=
  b.date

/-- `Boxscore.time` (mlb lines 385-390): `self._time.replace('Start
Time: ', '')`; on an unset field `None.replace` raises
`AttributeError`. -/
def MlbBoxscoreState.timeProp (b : MlbBoxscoreState) : Except PyErr String :=
  match b.time with
  | none => Except.error PyErr.attributeError
  | some s => Except.ok (pyReplace s "Start Time: " "")

/-- `Boxscore.venue` (mlb lines 392-398). -/
def MlbBoxscoreState.venueProp (b : MlbBoxscoreState) : Except PyErr String :=
  match b.venue with
  | none => Except.error PyErr.attributeError
  | some s => Except.ok (pyReplace s "Venue: " "")

/-- `Boxscore.attendance` (mlb lines 400-409): strips the label and the
thousands commas, then converts; only a `ValueError` from the `int(...)`
call is caught (defaulting to 0) — the `.replace` on an unset `None`
field raises `AttributeError` outside the `try`. -/
def MlbBoxscoreState.attendanceProp (b : MlbBoxscoreState) : Except PyErr Int :=
  match b.attendance with
  | none => Except.error PyErr.attributeError
  | some s =>
    let att := pyReplace s "Attendance: " ""
    match pyInt (pyReplace att "," "") with
    | Except.ok n => Except.ok n
    | Except.error PyErr.valueError => Except.ok 0
    | Except.error e => Except.error e

/-- `Boxscore.duration` (mlb lines 411-416). -/
def MlbBoxscoreState.durationProp (b : MlbBoxscoreState) : Except PyErr String :=
  match b.duration with
  | none => Except.error PyErr.attributeError
  | some s => Except.ok (pyReplace s "Game Duration: " "")

/-- `Boxscore.time_of_day` (mlb lines 418-426): `NIGHT` when `'night'`
occurs in the lowered raw field, else `DAY`; `None.lower()` raises. -/
def MlbBoxscoreState.timeOfDayProp (b : MlbBoxscoreState) : Except PyErr String :=
  match b.time_of_day with
  | none => Except.error PyErr.attributeError
  | some s => Except.ok (if pyContains (pyLower s) "night" then NIGHT else DAY)

/-- `Boxscore.away_at_bats` (mlb lines 478-483). -/
def MlbBoxscoreState.awayAtBats (b : MlbBoxscoreState) : Except PyErr Int :=
  pyIntOpt b.away_at_bats

/-- `Boxscore.away_runs` (mlb lines 485-490): `int(self._away_runs)`. -/
def MlbBoxscoreState.awayRuns (b : MlbBoxscoreState) : Except PyErr Int :=
  pyIntOpt b.away_runs

/-- `Boxscore.away_hits` (mlb lines 492-497). -/
def MlbBoxscoreState.awayHits (b : MlbBoxscoreState) : Except PyErr Int :=
  pyIntOpt b.away_hits

/-- `Boxscore.away_rbi` (mlb lines 499-505). -/
def MlbBoxscoreState.awayRbi (b : MlbBoxscoreState) : Except PyErr Int :=
  pyIntOpt b.away_rbi

/-- `Boxscore.home_at_bats` (mlb lines 758-763). -/
def MlbBoxscoreState.homeAtBats (b : MlbBoxscoreState) : Except PyErr Int :=
  pyIntOpt b.home_at_bats

/-- `Boxscore.home_runs` (mlb lines 765-770). -/
def MlbBoxscoreState.homeRuns (b : MlbBoxscoreState) : Except PyErr Int :=
  pyIntOpt b.home_runs

/-- `Boxscore.home_hits` (mlb lines 772-777). -/
def MlbBoxscoreState.homeHits (b : MlbBoxscoreState) : Except PyErr Int :=
  pyIntOpt b.home_hits

/-- `Boxscore.home_rbi` (mlb lines 779-785). -/
def MlbBoxscoreState.homeRbi (b : MlbBoxscoreState) : Except PyErr Int :=
  pyIntOpt b.home_rbi

/-- `Boxscore.winner` (mlb lines 428-436): `HOME` when
`self.home_runs > self.away_runs` (evaluated in that order), `AWAY` in
every other case, a tie included. -/
def MlbBoxscoreState.winnerProp (b : MlbBoxscoreState) : Except PyErr String :=
  match b.homeRuns with
  | Except.error e => Except.error e
  | Except.ok hr =>
    match b.awayRuns with
    | Except.error e => Except.error e
    | Except.ok ar => Except.ok (if ar < hr then HOME else AWAY)

/-- One row of the MLB tabular export, covering the columns of
`Boxscore.dataframe` (mlb lines 278-376) that derive from the raw
fields embedded in `MlbBoxscoreState`. -/
structure MlbFrame where
  date : Option String
  time : String
  venue : String
  attendance : Int
  duration : String
  time_of_day : String
  winner : String
  away_at_bats : Int
  away_runs : Int
  away_hits : Int
  away_rbi : Int
  home_at_bats : Int
  home_runs : Int
  home_hits : Int
  home_rbi : Int

/-- `Boxscore.dataframe` (mlb lines 278-376): when both core score
fields `_away_runs` and `_home_runs` are still `None` the export is the
absent result `None`; otherwise every column's typed accessor is
evaluated and a single full row is returned, indexed by the URI. -/
def MlbBoxscoreState.dataframe (b : MlbBoxscoreState) :
    Except PyErr (Option (String × MlbFrame)) :=
  if b.away_runs = none ∧ b.home_runs = none then Except.ok none
  else do
    let vDate := b.dateProp
    let vTime ← b.timeProp
    let vVenue ← b.venueProp
    let vAttendance ← b.attendanceProp
    let vDuration ← b.durationProp
    let vTimeOfDay ← b.timeOfDayProp
    let vWinner ← b.winnerProp
    let vAwayAtBats ← b.awayAtBats
    let vAwayRuns ← b.awayRuns
    let vAwayHits ← b.awayHits
    let vAwayRbi ← b.awayRbi
    let vHomeAtBats ← b.homeAtBats
    let vHomeRuns ← b.homeRuns
    let vHomeHits ← b.homeHits
    let vHomeRbi ← b.homeRbi
    pure (some (b.uri,
      { date := vDate
        time := vTime
        venue := vVenue
        attendance := vAttendance
        duration := vDuration
        time_of_day := vTimeOfDay
        winner := vWinner
        away_at_bats := vAwayAtBats
        away_runs := vAwayRuns
        away_hits := vAwayHits
        away_rbi := vAwayRbi
        home_at_bats := vHomeAtBats
        home_runs := vHomeRuns
        home_hits := vHomeHits
        home_rbi := vHomeRbi }))

/-- The characters strictly before the first occurrence of `pat`, or
`none` when `pat` (assumed non-empty) does not occur. -/
def beforeFirstL (pat : List Char) : List Char → Option (List Char)
  | [] => none
  | c :: rest =>
    if isPrefixL pat (c :: rest) then some []
    else (beforeFirstL pat rest).map (fun l => c :: l)

/-- Python's `re.sub(r'.*<pat>', '', s)` for a greedy leading `.*` on a
newline-free subject: everything up to and including the last occurrence
of `pat` is removed; a subject without `pat` is returned unchanged.
Computed by locating the first occurrence of the reversed pattern in the
reversed subject. -/
def subAfterLast (pat s : String) : String :=
  match beforeFirstL pat.data.reverse s.data.reverse with
  | none => s
  | some r => String.mk r.reverse

/-- Python's `re.sub(r'/.*', '', s)` on a newline-free subject:
everything from the first `/` onward is removed. -/
def subBeforeSlash (s : String) : String :=
  String.mk (s.data.takeWhile (fun c => c ≠ '/'))

/-- `Boxscores._parse_abbreviation` (ncaaf/boxscore.py lines 768-788):
`None` when the tag has no `cfb/schools` link, otherwise the text
between the last `/schools/` and the following `/`. -/
def ncaafParseAbbreviation (abbr : String) : Option String :=
  if pyContains abbr "cfb/schools" = false then none
  else some (subBeforeSlash (subAfterLast "/schools/" abbr))

/-- A team's HTML name tag as the game-day finder sees it: `html` is
Python's `str(tag)` and `text` is `tag.text()`. -/
structure NameTag where
  html : String
  text : String
deriving DecidableEq, Repr

/-- `Boxscores._get_name` (ncaaf/boxscore.py lines 790-816): the display
name is the tag text; a falsy abbreviation — `None` from a missing
school link, or the empty string — falls back to the full name with the
`non_di` flag set. Returns (name, abbreviation, non_di). -/
def ncaafGetName (name : NameTag) : String × String × Bool :=
  let team_name := name.text
  match ncaafParseAbbreviation name.html with
  | none => (team_name, team_name, true)
  | some a => if a = "" then (team_name, team_name, true) else (team_name, a, false)

example : pyInt "75" = Except.ok 75 := by decide
example : pyInt "" = Except.error PyErr.valueError := by decide
example : pyReplace "5--3" "--" "-" = "5-3" := by decide
example : pySplit "10-20-150-2-1" "-" = ["10", "20", "150", "2", "1"] := by decide
example : pySplit "" "-" = [""] := by decide
example : pyContains "abcd" "bc" = true := by decide
example : pyLower "Sports Logos.net" = "sports logos.net" := by decide

/-- Is a fetch outcome a raised (uncaught) exception rather than a
document or an absent sentinel? -/
def raisedError : Except PyErr PyQueryDoc → Bool
  | Except.error _ => true
  | Except.ok _ => false

/-- C1: each composite sub-field accessor normalizes `--` to `-`, splits
on `-`, and converts the part at its fixed position: on the pass string
`10-20-150-2-1` the pass-completions accessor returns 10 (position 0)
and the interceptions accessor returns 1 (position 4); `5--3` is
normalized to `5-3` before the split. -/
theorem ncaaf_composite_field_positions :
    ({ ncaafEmptyState with away_pass_completions := some "10-20-150-2-1" }
      : NcaafBoxscoreState).awayPassCompletions = Except.ok 10
  ∧ ({ ncaafEmptyState with away_interceptions := some "10-20-150-2-1" }
      : NcaafBoxscoreState).awayInterceptions = Except.ok 1
  ∧ compositeParts "10-20-150-2-1" = ["10", "20", "150", "2", "1"]
  ∧ pyReplace "5--3" "--" "-" = "5-3"
  ∧ compositeParts "5--3" = pySplit "5-3" "-"
  ∧ (∀ (b : NcaafBoxscoreState) (raw : String), b.away_pass_completions = some raw →
      b.awayPassCompletions = pyIntAt (compositeParts raw) 0)
  ∧ (∀ (b : NcaafBoxscoreState) (raw : String), b.away_interceptions = some raw →
      b.awayInterceptions = pyIntAt (compositeParts raw) 4) := by
  refine ⟨by decide, by decide, by decide, by decide, by decide, ?_, ?_⟩
  · intro b raw h
    unfold NcaafBoxscoreState.awayPassCompletions
    rw [h]
  · intro b raw h
    unfold NcaafBoxscoreState.awayInterceptions
    rw [h]

/-- C1 witness: the universal conjuncts applied at the concrete pass
string of the claim. -/
theorem ncaaf_composite_field_positions_witness :
    ({ ncaafEmptyState with away_pass_completions := some "10-20-150-2-1" }
      : NcaafBoxscoreState).awayPassCompletions
      = pyIntAt (compositeParts "10-20-150-2-1") 0 :=
  ncaaf_composite_field_positions.2.2.2.2.2.1 _ "10-20-150-2-1" rfl

/-- C2: for both sports, whenever the two score accessors succeed the
winner accessor returns `HOME` exactly when the home score is strictly
greater than the away score, and `AWAY` in every other case, a tie
included. -/
theorem winner_home_iff_strictly_greater :
    (∀ (b : NcaafBoxscoreState) (hp ap : Int),
        b.homePoints = Except.ok hp → b.awayPoints = Except.ok ap →
        ((b.winnerProp = Except.ok HOME ↔ ap < hp)
          ∧ (b.winnerProp = Except.ok AWAY ↔ ¬ ap < hp)))
  ∧ (∀ (b : MlbBoxscoreState) (hr ar : Int),
        b.homeRuns = Except.ok hr → b.awayRuns = Except.ok ar →
        ((b.winnerProp = Except.ok HOME ↔ ar < hr)
          ∧ (b.winnerProp = Except.ok AWAY ↔ ¬ ar < hr))) := by
  constructor
  · intro b hp ap h1 h2
    unfold NcaafBoxscoreState.winnerProp
    rw [h1, h2]
    by_cases hlt : ap < hp
    · simp [hlt, HOME, AWAY]
    · simp [hlt, HOME, AWAY]
  · intro b hr ar h1 h2
    unfold MlbBoxscoreState.winnerProp
    rw [h1, h2]
    by_cases hlt : ar < hr
    · simp [hlt, HOME, AWAY]
    · simp [hlt, HOME, AWAY]

/-- C2 witness: 75-70 home win, and a 70-70 tie defaulting to `AWAY`,
on concrete NCAAF states. -/
theorem winner_home_iff_strictly_greater_witness :
    ({ ncaafEmptyState with home_points := some "75", away_points := some "70" }
      : NcaafBoxscoreState).winnerProp = Except.ok HOME
  ∧ ({ ncaafEmptyState with home_points := some "70", away_points := some "70" }
      : NcaafBoxscoreState).winnerProp = Except.ok AWAY := by
  constructor
  · exact ((winner_home_iff_strictly_greater.1 _ 75 70 (by decide) (by decide)).1).mpr
      (by decide)
  · exact ((winner_home_iff_strictly_greater.1 _ 70 70 (by decide) (by decide)).2).mpr
      (by decide)

/-- C5 counterexample: the accessor on the two-part string `10-20` read
at position 4 raises `IndexError` (list index out of range), which is
not the type-cast/type-conversion error (`ValueError`/`TypeError`) the
claim names. -/
theorem ncaaf_short_composite_error_is_index_not_cast :
    ({ ncaafEmptyState with away_interceptions := some "10-20" }
      : NcaafBoxscoreState).awayInterceptions = Except.error PyErr.indexError
  ∧ ({ ncaafEmptyState with away_interceptions := some "10-20" }
      : NcaafBoxscoreState).awayInterceptions ≠ Except.error PyErr.valueError
  ∧ ({ ncaafEmptyState with away_interceptions := some "10-20" }
      : NcaafBoxscoreState).awayInterceptions ≠ Except.error PyErr.typeError := by
  refine ⟨by decide, by decide, by decide⟩

/-- C5 amended: on a composite raw string with fewer parts than the
accessor's fixed position requires, the accessor raises an uncaught
index-out-of-range error (`IndexError`, raised by the subscript before
any type conversion is attempted); the failure propagates to the caller
rather than being defaulted. -/
theorem ncaaf_short_composite_propagates_index_error :
    (∀ (b : NcaafBoxscoreState) (raw : String), b.away_interceptions = some raw →
        (compositeParts raw).length ≤ 4 →
        b.awayInterceptions = Except.error PyErr.indexError)
  ∧ (∀ (b : NcaafBoxscoreState) (raw : String), b.away_yards_from_penalties = some raw →
        (compositeParts raw).length ≤ 1 →
        b.awayYardsFromPenalties = Except.error PyErr.indexError) := by
  constructor
  · intro b raw h hlen
    have hg : (compositeParts raw)[4]? = none := List.getElem?_eq_none hlen
    simp [NcaafBoxscoreState.awayInterceptions, h, pyIntAt, hg]
  · intro b raw h hlen
    have hg : (compositeParts raw)[1]? = none := List.getElem?_eq_none hlen
    simp [NcaafBoxscoreState.awayYardsFromPenalties, h, pyIntAt, hg]

/-- C5 witness: the amended statement applied at the claim's own
two-part input `10-20`. -/
theorem ncaaf_short_composite_propagates_index_error_witness :
    ({ ncaafEmptyState with away_interceptions := some "10-20" }
      : NcaafBoxscoreState).awayInterceptions = Except.error PyErr.indexError :=
  ncaaf_short_composite_propagates_index_error.1 _ "10-20" rfl (by decide)

/-- C10: the NCAAF home-interceptions accessor is determined solely by
the `_home_pass_touchdowns` raw field — position 4 of that string after
double-dash normalization and splitting on `-` — so two states agreeing
on `_home_pass_touchdowns` yield identical results no matter how their
`_home_interceptions` fields differ. -/
theorem ncaaf_home_interceptions_reads_pass_touchdowns
    (b1 b2 : NcaafBoxscoreState)
    (h : b1.home_pass_touchdowns = b2.home_pass_touchdowns) :
    b1.homeInterceptions = b2.homeInterceptions
  ∧ (∀ raw : String, b1.home_pass_touchdowns = some raw →
      b1.homeInterceptions = pyIntAt (compositeParts raw) 4) := by
  constructor
  · unfold NcaafBoxscoreState.homeInterceptions
    rw [h]
  · intro raw hraw
    unfold NcaafBoxscoreState.homeInterceptions
    rw [hraw]

/-- C10 witness: two states sharing `_home_pass_touchdowns` but with
maximally different `_home_interceptions` fields produce the same
result, namely position 4 of the shared string. -/
theorem ncaaf_home_interceptions_reads_pass_touchdowns_witness :
    ({ ncaafEmptyState with home_pass_touchdowns := some "1-2-3-4-5", home_interceptions := some "9-9-9-9-9" }
      : NcaafBoxscoreState).homeInterceptions
      = ({ ncaafEmptyState with home_pass_touchdowns := some "1-2-3-4-5" }
        : NcaafBoxscoreState).homeInterceptions :=
  (ncaaf_home_interceptions_reads_pass_touchdowns _ _ rfl).1

theorem mlbScanFieldLine_eq_find (field dhMatcher : String)
    (hft : field ≠ "time_of_day") :
    ∀ gi : List String,
      mlbScanFieldLine field dhMatcher gi
        = gi.find? (fun e => pyContains (pyLower e) dhMatcher) := by
  intro gi
  induction gi with
  | nil => rfl
  | cons e rest ih =>
    by_cases hc : pyContains (pyLower e) dhMatcher = true
    · simp [mlbScanFieldLine, hft, hc, List.find?_cons_of_pos]
    · rw [List.find?_cons_of_neg _ (by simpa using hc)]
      simp [mlbScanFieldLine, hft, hc, ih]

theorem mlbScanFieldLine_tod_eq_find (dhMatcher : String) :
    ∀ gi : List String,
      mlbScanFieldLine "time_of_day" dhMatcher gi
        = gi.find? (fun e =>
            pyContains (pyLower e) "night game" || pyContains (pyLower e) "day game") := by
  intro gi
  induction gi with
  | nil => rfl
  | cons e rest ih =>
    simp only [mlbScanFieldLine, List.find?]
    by_cases h1 : pyContains (pyLower e) "night game" = true
    · simp [h1]
    · by_cases h2 : pyContains (pyLower e) "day game" = true
      · simp [h1, h2]
      · simp [h1, h2, ih]

theorem mlbNarrativeLoop_date (dhMatcher : String) (index : Nat)
    (l0 : String) (ls : List String) :
    ∀ (items : List (List String)) (dh : Bool),
      items.any itemHasDoubleHeader = true →
      mlbNarrativeLoop "date" dhMatcher index (l0 :: ls) items dh = Except.ok l0 := by
  intro items
  induction items with
  | nil => intro dh h; simp at h
  | cons item rest ih =>
    intro dh h
    by_cases hd : itemHasDoubleHeader item = true
    · simp [mlbNarrativeLoop, hd]
    · have hrest : rest.any itemHasDoubleHeader = true := by
        simpa [hd] using h
      simp [mlbNarrativeLoop, hd, ih dh hrest]

theorem mlbNarrativeLoop_scan_some (field dhMatcher : String) (index : Nat)
    (gameInfo : List String) (v : String)
    (hfd : field ≠ "date")
    (hscan : mlbScanFieldLine field dhMatcher gameInfo = some v) :
    ∀ (items : List (List String)) (dh : Bool),
      items.any itemHasDoubleHeader = true →
      mlbNarrativeLoop field dhMatcher index gameInfo items dh = Except.ok v := by
  intro items
  induction items with
  | nil => intro dh h; simp at h
  | cons item rest ih =>
    intro dh h
    by_cases hd : itemHasDoubleHeader item = true
    · simp [mlbNarrativeLoop, hd, hfd, hscan]
    · have hrest : rest.any itemHasDoubleHeader = true := by
        simpa [hd] using h
      simp [mlbNarrativeLoop, hd, ih dh hrest]

theorem mlbNarrativeLoop_scan_none_flag (field dhMatcher : String) (index : Nat)
    (gameInfo : List String)
    (hfd : field ≠ "date")
    (hscan : mlbScanFieldLine field dhMatcher gameInfo = none) :
    ∀ items : List (List String),
      mlbNarrativeLoop field dhMatcher index gameInfo items true = Except.ok "" := by
  intro items
  induction items with
  | nil => simp [mlbNarrativeLoop]
  | cons item rest ih =>
    by_cases hd : itemHasDoubleHeader item = true
    · simp [mlbNarrativeLoop, hd, hfd, hscan, ih]
    · simp [mlbNarrativeLoop, hd, ih]

theorem mlbNarrativeLoop_scan_none (field dhMatcher : String) (index : Nat)
    (gameInfo : List String)
    (hfd : field ≠ "date")
    (hscan : mlbScanFieldLine field dhMatcher gameInfo = none) :
    ∀ (items : List (List String)) (dh : Bool),
      items.any itemHasDoubleHeader = true →
      mlbNarrativeLoop field dhMatcher index gameInfo items dh = Except.ok "" := by
  intro items
  induction items with
  | nil => intro dh h; simp at h
  | cons item rest ih =>
    intro dh h
    by_cases hd : itemHasDoubleHeader item = true
    · simp [mlbNarrativeLoop, hd, hfd, hscan,
        mlbNarrativeLoop_scan_none_flag field dhMatcher index gameInfo hfd hscan rest]
    · have hrest : rest.any itemHasDoubleHeader = true := by
        simpa [hd] using h
      simp [mlbNarrativeLoop, hd, ih dh hrest]

/-- C3: in an MLB narrative block where some line carries the
doubleheader marker phrase (case-insensitively), the `date` field
returns line 0 of the block verbatim for every fixed index; any other
field returns the first line containing that field's marker substring
(`night game`/`day game` for `time_of_day`, the `DOUBLE_HEADER_INDICES`
marker otherwise); and a field whose marker occurs on no line returns
the empty string. -/
theorem mlb_doubleheader_field_scan (dhMatcher field : String)
    (l0 : String) (ls : List String) (rest : List (List String))
    (hdet : ((l0 :: ls) :: rest).any itemHasDoubleHeader = true)
    (hfd : field ≠ "date") (hft : field ≠ "time_of_day") :
    (∀ (i : Nat) (dhM : String),
        mlbParseGameDateAndLocation "date" dhM i ((l0 :: ls) :: rest) = Except.ok l0)
  ∧ (∀ (i : Nat) (l : String),
        (l0 :: ls).find? (fun e => pyContains (pyLower e) dhMatcher) = some l →
        mlbParseGameDateAndLocation field dhMatcher i ((l0 :: ls) :: rest) = Except.ok l)
  ∧ (∀ i : Nat,
        (l0 :: ls).find? (fun e => pyContains (pyLower e) dhMatcher) = none →
        mlbParseGameDateAndLocation field dhMatcher i ((l0 :: ls) :: rest) = Except.ok "")
  ∧ (∀ (i : Nat) (l : String),
        (l0 :: ls).find? (fun e =>
            pyContains (pyLower e) "night game" || pyContains (pyLower e) "day game")
          = some l →
        mlbParseGameDateAndLocation "time_of_day" dhMatcher i ((l0 :: ls) :: rest)
          = Except.ok l) := by
  refine ⟨?_, ?_, ?_, ?_⟩
  · intro i dhM
    exact mlbNarrativeLoop_date dhM i l0 ls _ false hdet
  · intro i l hfind
    have hscan : mlbScanFieldLine field dhMatcher (l0 :: ls) = some l := by
      rw [mlbScanFieldLine_eq_find field dhMatcher hft]; exact hfind
    exact mlbNarrativeLoop_scan_some field dhMatcher i (l0 :: ls) l hfd hscan _ false hdet
  · intro i hfind
    have hscan : mlbScanFieldLine field dhMatcher (l0 :: ls) = none := by
      rw [mlbScanFieldLine_eq_find field dhMatcher hft]; exact hfind
    exact mlbNarrativeLoop_scan_none field dhMatcher i (l0 :: ls) hfd hscan _ false hdet
  · intro i l hfind
    have hscan : mlbScanFieldLine "time_of_day" dhMatcher (l0 :: ls) = some l := by
      rw [mlbScanFieldLine_tod_eq_find dhMatcher]; exact hfind
    exact mlbNarrativeLoop_scan_some "time_of_day" dhMatcher i (l0 :: ls) l
      (by decide) hscan _ false hdet

/-- C3 witness: a concrete doubleheader block where the `date` field
returns line 0 and the `venue` field returns the marker-bearing line. -/
theorem mlb_doubleheader_field_scan_witness :
    mlbParseGameDateAndLocation "date" "venue:" 3
        [["Tuesday, June 5, 2018", "First Game of Doubleheader", "Venue: Fenway Park"]]
      = Except.ok "Tuesday, June 5, 2018"
  ∧ mlbParseGameDateAndLocation "venue" "venue:" 1
        [["Tuesday, June 5, 2018", "First Game of Doubleheader", "Venue: Fenway Park"]]
      = Except.ok "Venue: Fenway Park" := by
  constructor
  · exact (mlb_doubleheader_field_scan "venue:" "venue" "Tuesday, June 5, 2018"
      ["First Game of Doubleheader", "Venue: Fenway Park"] [] (by decide) (by decide)
      (by decide)).1 3 "venue:"
  · exact (mlb_doubleheader_field_scan "venue:" "venue" "Tuesday, June 5, 2018"
      ["First Game of Doubleheader", "Venue: Fenway Park"] [] (by decide) (by decide)
      (by decide)).2.1 1 "Venue: Fenway Park" (by decide)

/-- C4: in an NCAAF narrative block whose first line names no weekday
(a bowl/championship game), every field is read from its fixed index
shifted by +1; with a weekday present the unshifted index is used; and
in either case a selected line that is past the end of the block,
carries the `sports logos.net` watermark, or is empty yields the empty
string instead of the literal line. -/
theorem ncaaf_bowl_shift_and_sentinel (index : Nat) (l0 : String)
    (rest : List String)
    (hnoday : weekdayNames.any (fun day => pyContains (pyLower l0) day) = false) :
    ncaafParseGameDateAndLocation index (l0 :: rest) = ncaafPick (index + 1) (l0 :: rest)
  ∧ (∀ (l0' : String) (rest' : List String) (i : Nat),
      weekdayNames.any (fun day => pyContains (pyLower l0') day) = true →
      ncaafParseGameDateAndLocation i (l0' :: rest') = ncaafPick i (l0' :: rest'))
  ∧ (∀ (gi : List String) (i : Nat), gi.length ≤ i → ncaafPick i gi = Except.ok "")
  ∧ (∀ (gi : List String) (i : Nat) (hi : i < gi.length),
      (pyContains (pyLower (gi.get ⟨i, hi⟩)) "sports logos.net" = true
          ∨ gi.get ⟨i, hi⟩ = "") →
      ncaafPick i gi = Except.ok "") := by
  refine ⟨?_, ?_, ?_, ?_⟩
  · simp [ncaafParseGameDateAndLocation, hnoday]
  · intro l0' rest' i h
    simp [ncaafParseGameDateAndLocation, h]
  · intro gi i hlen
    unfold ncaafPick
    rw [List.get?_eq_none.mpr hlen]
  · intro gi i hi hcond
    unfold ncaafPick
    rw [List.get?_eq_get hi]
    rcases hcond with hw | he
    · simp only [List.get_eq_getElem] at hw
      simp [hw]
    · simp only [List.get_eq_getElem] at he
      simp [he]

/-- C4 witness: the bowl-game block `Orange Bowl` (no weekday on line 0)
shifts index 0 to line 1, and the sentinel conjuncts applied at an
out-of-range index and a watermark line. -/
theorem ncaaf_bowl_shift_and_sentinel_witness :
    ncaafParseGameDateAndLocation 0 ["Orange Bowl", "Dec 30, 2017", "Hard Rock Stadium"]
      = ncaafPick 1 ["Orange Bowl", "Dec 30, 2017", "Hard Rock Stadium"]
  ∧ ncaafPick 5 ["Orange Bowl"] = Except.ok ""
  ∧ ncaafPick 0 ["Logos via Sports Logos.net"] = Except.ok "" := by
  refine ⟨?_, ?_, ?_⟩
  · exact (ncaaf_bowl_shift_and_sentinel 0 "Orange Bowl"
      ["Dec 30, 2017", "Hard Rock Stadium"] (by decide)).1
  · exact (ncaaf_bowl_shift_and_sentinel 0 "Orange Bowl"
      ["Dec 30, 2017", "Hard Rock Stadium"] (by decide)).2.2.1 ["Orange Bowl"] 5 (by decide)
  · exact (ncaaf_bowl_shift_and_sentinel 0 "Orange Bowl"
      ["Dec 30, 2017", "Hard Rock Stadium"] (by decide)).2.2.2
      ["Logos via Sports Logos.net"] 0 (by decide) (Or.inl (by decide))

/-- C6 counterexample: a name tag that does contain the `cfb/schools`
school-path link but whose extracted code is empty (a double slash after
`/schools/`) is still flagged `non_di = true` with the abbreviation
falling back to the full name, contradicting the claim that a present
link always yields `non_di = false` and the extracted code. -/
theorem ncaaf_school_link_empty_code_flagged_non_di :
    pyContains "<a href=\"/cfb/schools//index.html\">Mystery College</a>" "cfb/schools" = true
  ∧ ncaafParseAbbreviation "<a href=\"/cfb/schools//index.html\">Mystery College</a>" = some ""
  ∧ ncaafGetName (NameTag.mk "<a href=\"/cfb/schools//index.html\">Mystery College</a>" "Mystery College")
      = ("Mystery College", "Mystery College", true) := by
  refine ⟨by decide, by decide, by decide⟩

/-- C6 amended: a tag without the `cfb/schools` link segment yields
`non_di = true` and an abbreviation equal to the full display name; a
tag with the link yields the code extracted from the path, and
`non_di = false` with that code as the abbreviation exactly when the
extracted code is non-empty — an empty extracted code also falls back
to the full name with `non_di = true`. -/
theorem ncaaf_non_di_classification :
    (∀ tag : NameTag, pyContains tag.html "cfb/schools" = false →
        ncaafGetName tag = (tag.text, tag.text, true))
  ∧ (∀ tag : NameTag, pyContains tag.html "cfb/schools" = true →
        ncaafParseAbbreviation tag.html
          = some (subBeforeSlash (subAfterLast "/schools/" tag.html)))
  ∧ (∀ (tag : NameTag) (a : String), ncaafParseAbbreviation tag.html = some a → a ≠ "" →
        ncaafGetName tag = (tag.text, a, false))
  ∧ (∀ tag : NameTag, ncaafParseAbbreviation tag.html = some "" →
        ncaafGetName tag = (tag.text, tag.text, true)) := by
  refine ⟨?_, ?_, ?_, ?_⟩
  · intro tag h
    simp [ncaafGetName, ncaafParseAbbreviation, h]
  · intro tag h
    simp [ncaafParseAbbreviation, h]
  · intro tag a h ha
    simp [ncaafGetName, h, ha]
  · intro tag h
    simp [ncaafGetName, h]

/-- C6 witness: the amended statement applied to a well-formed school
link (code `purdue`) and to a tag without any school link. -/
theorem ncaaf_non_di_classification_witness :
    ncaafGetName (NameTag.mk "<a href=\"/cfb/schools/purdue/2017.html\">Purdue</a>" "Purdue")
      = ("Purdue", "purdue", false)
  ∧ ncaafGetName (NameTag.mk "<a>North Texas Mean Green</a>" "North Texas Mean Green")
      = ("North Texas Mean Green", "North Texas Mean Green", true) := by
  constructor
  · exact ncaaf_non_di_classification.2.2.1
      (NameTag.mk "<a href=\"/cfb/schools/purdue/2017.html\">Purdue</a>" "Purdue")
      "purdue" (by decide) (by decide)
  · exact ncaaf_non_di_classification.1
      (NameTag.mk "<a>North Texas Mean Green</a>" "North Texas Mean Green") (by decide)

/-- C7: for both sports, a boxscore whose two core score fields are
both unset exports the absent result `None` from `dataframe`, never a
partially filled record. -/
theorem dataframe_absent_when_scores_unset :
    (∀ b : NcaafBoxscoreState, b.away_points = none → b.home_points = none →
        b.dataframe = Except.ok none)
  ∧ (∀ b : MlbBoxscoreState, b.away_runs = none → b.home_runs = none →
        b.dataframe = Except.ok none) := by
  constructor
  · intro b h1 h2
    unfold NcaafBoxscoreState.dataframe
    rw [if_pos ⟨h1, h2⟩]
  · intro b h1 h2
    unfold MlbBoxscoreState.dataframe
    rw [if_pos ⟨h1, h2⟩]

/-- C7 witness: the freshly constructed all-`None` states of both
sports export the absent result. -/
theorem dataframe_absent_when_scores_unset_witness :
    ncaafEmptyState.dataframe = Except.ok none
  ∧ mlbEmptyState.dataframe = Except.ok none := by
  constructor
  · exact dataframe_absent_when_scores_unset.1 ncaafEmptyState rfl rfl
  · exact dataframe_absent_when_scores_unset.2 mlbEmptyState rfl rfl

/-- C8 counterexample: a failing fetch handed to the game-day index
fetch `Boxscores._get_requested_page` is returned as a raised error —
it is not caught and not converted to an absent-document sentinel,
contradicting the claim that every page fetch converts failures and
never raises. -/
theorem index_page_fetch_failure_raises :
    mlbGetRequestedPage (Except.error PyErr.valueError) = Except.error PyErr.valueError
  ∧ raisedError (mlbGetRequestedPage (Except.error PyErr.valueError)) = true
  ∧ ncaafGetRequestedPage (Except.error PyErr.valueError) = Except.error PyErr.valueError
  ∧ raisedError (ncaafGetRequestedPage (Except.error PyErr.valueError)) = true := by
  refine ⟨by decide, by decide, by decide, by decide⟩

/-- C8 amended: the `Boxscore` detail-page fetch catches any fetch
failure and converts it to the absent-document sentinel (and strips
comment tags on success); the `Boxscores` game-day index fetch performs
no handling at all — its outcome, a failure included, propagates to the
caller unchanged. -/
theorem detail_fetch_caught_index_fetch_propagates :
    (∀ e : PyErr, mlbRetrieveHtmlPage (Except.error e) = none)
  ∧ (∀ d : PyQueryDoc, mlbRetrieveHtmlPage (Except.ok d) = some (removeHtmlCommentTags d))
  ∧ (∀ e : PyErr, ncaafRetrieveHtmlPage (Except.error e) = none)
  ∧ (∀ d : PyQueryDoc, ncaafRetrieveHtmlPage (Except.ok d) = some (removeHtmlCommentTags d))
  ∧ (∀ r : Except PyErr PyQueryDoc, mlbGetRequestedPage r = r)
  ∧ (∀ r : Except PyErr PyQueryDoc, ncaafGetRequestedPage r = r) :=
  ⟨fun _ => rfl, fun _ => rfl, fun _ => rfl, fun _ => rfl, fun _ => rfl, fun _ => rfl⟩

/-- C8 amended witness: the detail fetch converts a concrete failure to
the absent sentinel while the index fetch returns it unchanged. -/
theorem detail_fetch_caught_index_fetch_propagates_witness :
    mlbRetrieveHtmlPage (Except.error PyErr.valueError) = none
  ∧ mlbGetRequestedPage (Except.error PyErr.valueError) = Except.error PyErr.valueError := by
  constructor
  · exact detail_fetch_caught_index_fetch_propagates.1 PyErr.valueError
  · exact detail_fetch_caught_index_fetch_propagates.2.2.2.2.1
      (Except.error PyErr.valueError)

/-- C9 counterexample: on a boxscore whose page was unavailable (all raw
fields `None`) the MLB `time` accessor raises `AttributeError`
(`None.replace`) instead of returning the empty string, and `away_runs`
raises `TypeError` (`int(None)`) instead of returning zero. -/
theorem unavailable_page_accessors_raise :
    mlbEmptyState.timeProp = Except.error PyErr.attributeError
  ∧ mlbEmptyState.timeProp ≠ Except.ok ""
  ∧ mlbEmptyState.awayRuns = Except.error PyErr.typeError
  ∧ mlbEmptyState.awayRuns ≠ Except.ok 0 := by
  refine ⟨by decide, by decide, by decide, by decide⟩

/-- C9 amended: when the page was unavailable every raw field remains
`None` and the typed accessors raise rather than default —
`AttributeError` for the string-method fields (time, venue, attendance,
duration, time-of-day, stadium) and `TypeError` for the integer
conversions; only the `date` accessor returns the unset raw value
(`None`, not the empty string), and explicitly guarded accessors such as
MLB `attendance` default to 0 only for a malformed present string, not
for an unset field. -/
theorem unavailable_page_accessors_raise_not_default :
    mlbEmptyState.timeProp = Except.error PyErr.attributeError
  ∧ mlbEmptyState.venueProp = Except.error PyErr.attributeError
  ∧ mlbEmptyState.attendanceProp = Except.error PyErr.attributeError
  ∧ mlbEmptyState.durationProp = Except.error PyErr.attributeError
  ∧ mlbEmptyState.timeOfDayProp = Except.error PyErr.attributeError
  ∧ mlbEmptyState.awayRuns = Except.error PyErr.typeError
  ∧ mlbEmptyState.homeRuns = Except.error PyErr.typeError
  ∧ mlbEmptyState.dateProp = none
  ∧ ncaafEmptyState.timeProp = Except.error PyErr.attributeError
  ∧ ncaafEmptyState.stadiumProp = Except.error PyErr.attributeError
  ∧ ncaafEmptyState.awayPoints = Except.error PyErr.typeError
  ∧ ncaafEmptyState.awayInterceptions = Except.error PyErr.attributeError
  ∧ ncaafEmptyState.dateProp = none
  ∧ ({ mlbEmptyState with attendance := some "Attendance: not available" }
      : MlbBoxscoreState).attendanceProp = Except.ok 0 := by
  refine ⟨by decide, by decide, by decide, by decide, by decide, by decide, by decide,
    by decide, by decide, by decide, by decide, by decide, by decide, by decide⟩
